import Mathlib

/-!
Shallow embedding of src/simple_wave.h, a single-header RIFF/WAVE parser.

Modelling conventions:

* A memory buffer is a `List Nat`; every cell holds one byte, so loads reduce
  the stored value mod 256.
* A C pointer into a buffer is a byte offset; a nullable pointer is an
  `Option`.  The allocation handle `free_ptr` is an opaque non-null token
  (the model uses `some 1`); `none` is the C NULL.
* Byte loads return `Option Nat`; a load of `none` is a read outside the
  buffer, i.e. undefined behaviour in the C source.
* Machine integers are `Nat`, with an explicit `% 2 ^ 32` where the uint32
  wraparound of the C source matters (the chunk-cursor advance), and an
  explicit twos-complement truncation `toInt32` for the cast to C int.
* Functions that the C source writes as `int f(..., WAVE* out_wave)` return a
  `COut`: `ret r w` means the call returned `r` with `w` the final contents
  of `*out_wave` (`none` when the call never wrote through the pointer), and
  `ub` means the call reached behaviour the C standard leaves undefined or
  unspecified (out-of-bounds read, read of uninitialized memory, short
  `fread`), after which execution is not modelled further.
* C loops are modelled by fuel recursion; the fuel passed by the wrappers is
  provably sufficient (the cursor advances by at least 8 per iteration), so
  the out-of-fuel outcome is unreachable and mapped to `ub` only for
  totality.
-/

/-- One byte load: cells hold bytes, so the stored value is reduced mod 256. -/
def readByte (b : List Nat) (i : Nat) : Option Nat :=
  match b[i]? with
  | some v => some (v % 256)
  | none => none

/-- Little-endian 16-bit load, as the packed struct fields of the C source. -/
def readU16 (b : List Nat) (i : Nat) : Option Nat :=
  match readByte b i, readByte b (i + 1) with
  | some x0, some x1 => some (x0 + 256 * x1)
  | _, _ => none

/-- Little-endian 32-bit load. -/
def readU32 (b : List Nat) (i : Nat) : Option Nat :=
  match readByte b i, readByte b (i + 1), readByte b (i + 2), readByte b (i + 3) with
  | some x0, some x1, some x2, some x3 =>
      some (x0 + 256 * x1 + 65536 * x2 + 16777216 * x3)
  | _, _, _, _ => none

/-- RIFF_CODE(R, I, F, F) = 0x46464952. -/
def RIFF_ID : Nat := 0x46464952

/-- RIFF_CODE(W, A, V, E) = 0x45564157. -/
def WAVE_ID : Nat := 0x45564157

/-- WAVE_CHUNK_FORMAT = RIFF_CODE(f, m, t, space) = 0x20746d66. -/
def FMT_ID : Nat := 0x20746d66

/-- WAVE_CHUNK_DATA = RIFF_CODE(d, a, t, a) = 0x61746164. -/
def DATA_ID : Nat := 0x61746164

/-- The 16-byte classic fmt payload (struct WAVE_FORMAT of the C source). -/
structure WAVE_FORMAT where
  format_tag : Nat
  channels : Nat
  samples_per_sec : Nat
  avg_bytes_per_sec : Nat
  block_align : Nat
  bits_per_sample : Nat
deriving DecidableEq, Repr

/-- struct WAVE of the C source.  Pointer fields are byte offsets into the
parsed buffer (or, for the info loader, into the owned scratch block);
`format` carries the pointee value of the C `WAVE_FORMAT*` field, which is
legitimate because the underlying bytes never change after the parse. -/
structure WAVE where
  free_ptr : Option Nat
  free_ptr_size : Nat
  header : Option Nat
  format_chunk : Option Nat
  format_chunk_offset : Nat
  data_chunk : Option Nat
  data_chunk_offset : Nat
  sample_data : Option Nat
  sample_data_size : Nat
  sample_data_offset : Nat
  format : Option WAVE_FORMAT
deriving DecidableEq, Repr

/-- The result of memset(out_wave, 0, sizeof(WAVE)). -/
def zeroWave : WAVE where
  free_ptr := none
  free_ptr_size := 0
  header := none
  format_chunk := none
  format_chunk_offset := 0
  data_chunk := none
  data_chunk_offset := 0
  sample_data := none
  sample_data_size := 0
  sample_data_offset := 0
  format := none

/-- Outcome of a C call with an `int` result and a `WAVE* out_wave` output
parameter: `ret r w` = the call returned `r` and left `*out_wave = w`
(`none`: the call returned before ever writing through the pointer);
`ub` = the call hit undefined or unspecified behaviour. -/
inductive COut where
  | ret (r : Nat) (w : Option WAVE)
  | ub
deriving DecidableEq, Repr

/-- The C function Wave_ValidateFormat, as a function of the pointee of
`out_wave->format` (the bytes behind the pointer are immutable, so the
pointee value determines the outcome).  Mirrors the four early returns. -/
def Wave_ValidateFormat (wave : WAVE) : Bool :=
  match wave.format with
  | none => false
  | some f =>
    if f.format_tag ≠ 1 ∧ f.format_tag ≠ 3 then false
    else if f.format_tag = 1 ∧ f.bits_per_sample ≠ 8 ∧ f.bits_per_sample ≠ 16
        ∧ f.bits_per_sample ≠ 32 then false
    else if f.format_tag = 3 ∧ f.bits_per_sample ≠ 32 ∧ f.bits_per_sample ≠ 64 then false
    else true

/-- Cursor advance of the chunk walker:
`at += sizeof(RIFF_CHUNK) + ((chunk->size + 1) & ~1)`.
The addition `chunk->size + 1` is uint32 arithmetic, hence the `% 2 ^ 32`;
masking with `~1` clears bit 0, i.e. subtracts the low bit, written here in
arithmetic form `x - x % 2`. -/
def chunkAdvance (sz : Nat) : Nat :=
  8 + ((sz + 1) % 2 ^ 32 - (sz + 1) % 2 ^ 32 % 2)

/-- Outcome of a modelled C loop: it finished with the given WAVE state, or
it hit undefined or unspecified behaviour (for the buffer walker: a read
outside the buffer; for the info loop: also short reads and uninitialized
scratch bytes), or the fuel ran out (the wrappers pass provably sufficient
fuel, so `noFuel` is unreachable). -/
inductive WalkOut where
  | done (w : WAVE)
  | ub
  | noFuel
deriving DecidableEq, Repr

/-- The chunk-walker loop of Wave_ParseBuffer (lines 271 to 290): starting at
`cur` (byte 12), while `cur < maxOff` read the 8-byte chunk header at `cur`
(id and size; reading past the buffer is `oob`), record the LAST fmt and data
chunk offsets into the output WAVE, and advance by `chunkAdvance size`. -/
def walkChunks (b : List Nat) (maxOff : Nat) : Nat → Nat → WAVE → WalkOut
  | 0, _, _ => .noFuel
  | fuel + 1, cur, w =>
    if cur < maxOff then
      match readU32 b cur, readU32 b (cur + 4) with
      | some cid, some csz =>
        walkChunks b maxOff fuel (cur + chunkAdvance csz)
          (if cid = DATA_ID then
            { w with data_chunk := some cur, data_chunk_offset := cur }
          else if cid = FMT_ID then
            { w with format_chunk := some cur, format_chunk_offset := cur }
          else w)
      | _, _ => .ub
    else .done w

/-- The sequence of (offset, id, size) chunk headers the walker visits, with
the same guards as `walkChunks` (`none` on an out-of-bounds read or on fuel
exhaustion). -/
def walkTrace (b : List Nat) (maxOff : Nat) : Nat → Nat → Option (List (Nat × Nat × Nat))
  | 0, _ => none
  | fuel + 1, cur =>
    if cur < maxOff then
      match readU32 b cur, readU32 b (cur + 4) with
      | some cid, some csz =>
        (walkTrace b maxOff fuel (cur + chunkAdvance csz)).map
          (fun tr => (cur, cid, csz) :: tr)
      | _, _ => none
    else some []

/-- Offset of the last chunk with the given id in a visited-chunk list. -/
def lastChunkOcc (cid : Nat) : List (Nat × Nat × Nat) → Option Nat
  | [] => none
  | c :: tr =>
    match lastChunkOcc cid tr with
    | some o => some o
    | none => if c.2.1 = cid then some c.1 else none

/-- The 16-byte WAVE_FORMAT pointee at offset `o` of the buffer. -/
def decodeFormat (b : List Nat) (o : Nat) : Option WAVE_FORMAT :=
  match readU16 b o, readU16 b (o + 2), readU32 b (o + 4), readU32 b (o + 8),
      readU16 b (o + 12), readU16 b (o + 14) with
  | some tg, some ch, some sps, some abps, some ba, some bps =>
      some { format_tag := tg, channels := ch, samples_per_sec := sps,
             avg_bytes_per_sec := abps, block_align := ba, bits_per_sample := bps }
  | _, _, _, _, _, _ => none

/-- The Wave_ValidateFormat call at the end of Wave_ParseBuffer, performed on
the buffer itself: the C function dereferences `out_wave->format` (a pointer
to `fp = format_chunk + 8`), reading `format_tag` (2 bytes at `fp`) and, only
when the tag check passes, `bits_per_sample` (2 bytes at `fp + 14`); the
short-circuit order of the C conditionals is preserved.  Returns the final
`COut` of Wave_ParseBuffer for the already-built output `w`. -/
def validateTail (b : List Nat) (fp : Nat) (w : WAVE) : COut :=
  match readU16 b fp with
  | none => .ub
  | some tag =>
    if tag ≠ 1 ∧ tag ≠ 3 then .ret 0 (some w)
    else
      match readU16 b (fp + 14) with
      | none => .ub
      | some bits =>
        if tag = 1 ∧ bits ≠ 8 ∧ bits ≠ 16 ∧ bits ≠ 32 then .ret 0 (some w)
        else if tag = 3 ∧ bits ≠ 32 ∧ bits ≠ 64 then .ret 0 (some w)
        else .ret 1 (some w)

/-- Lines 292 to 305 of the C source: after the walk, fail when no fmt chunk
was found; bind `format` just past the fmt chunk header; when a data chunk
was found set the sample fields from it (`sample_data_size` re-reads
`data_chunk->size`, guaranteed in bounds because the walker already read that
header, so the `ub` branch is unreachable); finally validate the format. -/
def parseTail (b : List Nat) (w1 : WAVE) : COut :=
  match w1.format_chunk with
  | none => .ret 0 (some w1)
  | some fo =>
    match w1.data_chunk with
    | none => validateTail b (fo + 8) { w1 with format := decodeFormat b (fo + 8) }
    | some doff =>
      match readU32 b (doff + 4) with
      | none => .ub
      | some dsz =>
        validateTail b (fo + 8)
          { w1 with format := decodeFormat b (fo + 8),
                    sample_data := some (doff + 8),
                    sample_data_size := dsz,
                    sample_data_offset := doff + 8 }

/-- The C function Wave_ParseBuffer.  `buff` is the buffer pointer (`none` =
NULL; the list length is the extent of the allocation the pointer grants
access to), `size` the size argument (the C source uses it only for the
`!size` check), `out0` the out_wave pointer with the callers prior contents
(`none` = NULL).  Note `12 + rsz - 4` is pointer arithmetic
`(buff + 12) + header->size - 4`, never negative in the C. -/
def Wave_ParseBuffer (buff : Option (List Nat)) (size : Nat) (out0 : Option WAVE) : COut :=
  match buff, out0 with
  | none, _ => .ret 0 none
  | some _, none => .ret 0 none
  | some b, some _ =>
    if size = 0 then .ret 0 none
    else
      -- memset(out_wave, 0, sizeof(WAVE)); out_wave->header = buff;
      match readU32 b 0 with
      | none => .ub
      | some rid =>
        if rid ≠ RIFF_ID then .ret 0 (some { zeroWave with header := some 0 })
        else
          match readU32 b 8 with
          | none => .ub
          | some fid =>
            if fid ≠ WAVE_ID then .ret 0 (some { zeroWave with header := some 0 })
            else
              match readU32 b 4 with
              | none => .ub
              | some rsz =>
                match walkChunks b (12 + rsz - 4) (12 + rsz - 4 + 1) 12
                    { zeroWave with header := some 0 } with
                | .done w1 => parseTail b w1
                | _ => .ub

/-- Twos-complement truncation of the C cast `(int)x` (conversion of an
out-of-range unsigned value to int is implementation-defined; every target
this header supports truncates). -/
def toInt32 (n : Nat) : Int :=
  if n % 2 ^ 32 < 2 ^ 31 then ((n % 2 ^ 32 : Nat) : Int)
  else ((n % 2 ^ 32 : Nat) : Int) - 2 ^ 32

/-- The C function Wave_GetSampleCount.  `none` result = the integer division
by zero the C performs when `bits_per_sample / 8 = 0` (undefined behaviour). -/
def Wave_GetSampleCount (wave : Option WAVE) : Option Int :=
  match wave with
  | none => some 0
  | some w =>
    match w.format with
    | none => some 0
    | some f =>
      if f.bits_per_sample / 8 = 0 then none
      else some (toInt32 (w.sample_data_size / (f.bits_per_sample / 8)))

/-- Result of the float expression in Wave_GetLengthInSeconds: `val q` is the
real value of the expression (the C rounds each operation to binary32; at
every input used in the theorems below the computation is exact, so no
rounding is modelled), `divZero` marks a float division with zero divisor,
which under IEEE 754 yields plus or minus infinity or NaN, never 0.0. -/
inductive FloatOut where
  | val (q : Rat)
  | divZero
deriving DecidableEq, Repr

/-- The C function Wave_GetLengthInSeconds:
`((float)sample_data_size / (bits_per_sample / 8)) / (float)samples_per_sec`.
`bits_per_sample / 8` is integer division; both outer divisions are float
divisions, so a zero divisor gives `divZero`, not 0. -/
def Wave_GetLengthInSeconds (wave : Option WAVE) : FloatOut :=
  match wave with
  | none => .val 0
  | some w =>
    match w.format with
    | none => .val 0
    | some f =>
      if f.bits_per_sample / 8 = 0 then .divZero
      else if f.samples_per_sec = 0 then .divZero
      else .val (((w.sample_data_size : Rat) / ((f.bits_per_sample / 8 : Nat) : Rat))
        / ((f.samples_per_sec : Nat) : Rat))

/-- The C function Wave_Free.  Returns the C result, the (pointer, size) pair
handed to `allocator->free` when a release happened, and the final contents
of the WAVE (`none` when the argument pointer was NULL). -/
def Wave_Free (wave : Option WAVE) : Nat × Option (Nat × Nat) × Option WAVE :=
  match wave with
  | none => (0, none, none)
  | some w =>
    match w.free_ptr with
    | some p => (1, some (p, w.free_ptr_size),
        some { w with free_ptr := none, free_ptr_size := 0 })
    | none => (0, none, some w)

/-- The C function Wave_LoadStream.  `file` is the stream (`none` = NULL
FILE pointer; the list is the bytes readable from the current position),
`size` the size argument.  The allocator is modelled as always returning a
fresh non-null block, token `1`; `fread(buff, 1, size, file)` reading fewer
than `size` bytes leaves the buffer tail uninitialized (`ub`). -/
def Wave_LoadStream (file : Option (List Nat)) (size : Nat) (out0 : Option WAVE) : COut :=
  match out0, file with
  | none, _ => .ret 0 none
  | some _, none => .ret 0 none
  | some w0, some fb =>
    if fb.length < size then .ub
    else
      -- out_wave->free_ptr = buff; out_wave->free_ptr_size = size;  (before the parse)
      match Wave_ParseBuffer (some (fb.take size)) size
          (some { w0 with free_ptr := some 1, free_ptr_size := size }) with
      | .ret r none =>  -- the parse returned without writing out_wave
          .ret r (some { w0 with free_ptr := some 1, free_ptr_size := size })
      | .ret r (some w) => .ret r (some w)
      | .ub => .ub

/-- The C function Wave_LoadPath.  `pathNull` models a NULL path pointer and
`file` the result of fopen (`none` = it failed).  fopen success leads to
Wave_LoadStream with the measured file size, whose result is DISCARDED; the
function always falls through to `return 1`. -/
def Wave_LoadPath (pathNull : Bool) (file : Option (List Nat)) (out0 : Option WAVE) : COut :=
  match out0 with
  | none => .ret 0 none
  | some w0 =>
    if pathNull then .ret 0 none
    else
      match file with
      | none => .ret 1 none
      | some fb =>
        match Wave_LoadStream (some fb) fb.length (some w0) with
        | .ub => .ub
        | .ret _ w => .ret 1 w

/-- The chunk loop of Wave_LoadStreamOnlyInfo (lines 373 to 405): while
`ftell + 8 <= size`, read an 8-byte chunk header (a short read is `ub`).
A data chunk: copy the header into the scratch slot at scratch offset 12,
record the stream offsets and the size, and seek over the payload.  A fmt
chunk: copy the header into the scratch slot at scratch offset 20, then
`fread(format, 1, chunk.size, file)` into the 16-byte scratch slot at offset
28: a size above 16 overflows the heap block, a short read or a size below 16
leaves slot bytes uninitialized, all `ub`; otherwise exactly the 16 payload
bytes are consumed.  Any other chunk is seeked over.  Odd sizes seek one
extra pad byte; every branch leaves the stream at `pos + 8 + size + size % 2`. -/
def infoLoop (fb : List Nat) (size : Nat) : Nat → Nat → WAVE → WalkOut
  | 0, _, _ => .noFuel
  | fuel + 1, pos, w =>
    if pos + 8 ≤ size then
      if fb.length < pos + 8 then .ub
      else
        match readU32 fb pos, readU32 fb (pos + 4) with
        | some cid, some csz =>
          if cid = DATA_ID then
            infoLoop fb size fuel (pos + 8 + csz + csz % 2)
              { w with data_chunk := some 12,
                       data_chunk_offset := pos,
                       sample_data_offset := pos + 8,
                       sample_data_size := csz }
          else if cid = FMT_ID then
            if csz > 16 then .ub
            else if fb.length < pos + 8 + csz then .ub
            else if csz < 16 then .ub
            else
              match decodeFormat fb (pos + 8) with
              | some f =>
                infoLoop fb size fuel (pos + 8 + csz + csz % 2)
                  { w with format_chunk := some 20,
                           format_chunk_offset := pos,
                           format := some f }
              | none => .ub
          else infoLoop fb size fuel (pos + 8 + csz + csz % 2) w
        | _, _ => .ub
    else .done w

/-- The C function Wave_LoadStreamOnlyInfo.  Allocates the 44-byte scratch
block (handle token 1, recorded in free_ptr BEFORE any failure can occur),
reads and validates the 12-byte RiffHeader (a stream shorter than 12 bytes
leaves header fields uninitialized: `ub`), runs the chunk loop, and finally
validates the format. -/
def Wave_LoadStreamOnlyInfo (file : Option (List Nat)) (size : Nat)
    (out0 : Option WAVE) : COut :=
  match file, out0 with
  | none, _ => .ret 0 none
  | some _, none => .ret 0 none
  | some fb, some _ =>
    -- memset; free_ptr_size = 44; free_ptr = allocate(44); header = scratch
    if fb.length < 12 then .ub
    else
      match readU32 fb 0, readU32 fb 8 with
      | some rid, some fid =>
        if rid ≠ RIFF_ID then
          .ret 0 (some { zeroWave with free_ptr := some 1, free_ptr_size := 44,
                                       header := some 0 })
        else if fid ≠ WAVE_ID then
          .ret 0 (some { zeroWave with free_ptr := some 1, free_ptr_size := 44,
                                       header := some 0 })
        else
          match infoLoop fb size (size + 1) 12
              { zeroWave with free_ptr := some 1, free_ptr_size := 44,
                              header := some 0 } with
          | .done w1 =>
            if Wave_ValidateFormat w1 then .ret 1 (some w1) else .ret 0 (some w1)
          | _ => .ub
      | _, _ => .ub

/-- The C function Wave_LoadPathOnlyInfo: like Wave_LoadPath it discards the
result of the inner loader and always falls through to `return 1`. -/
def Wave_LoadPathOnlyInfo (pathNull : Bool) (file : Option (List Nat))
    (out0 : Option WAVE) : COut :=
  if pathNull then .ret 0 none
  else
    match out0 with
    | none => .ret 0 none
    | some w0 =>
      match file with
      | none => .ret 1 none
      | some fb =>
        match Wave_LoadStreamOnlyInfo (some fb) fb.length (some w0) with
        | .ub => .ub
        | .ret _ w => .ret 1 w

/-! ## Concrete inputs used by witnesses and counterexamples -/

/-- Scenario buffer: minimal 16-bit mono PCM, 8000 Hz, 4 samples
(RIFF 44 WAVE, fmt 16, data 8). -/
def buf44 : List Nat :=
  [82,73,70,70, 44,0,0,0, 87,65,86,69,
   102,109,116,32, 16,0,0,0,
   1,0, 1,0, 64,31,0,0, 128,62,0,0, 2,0, 16,0,
   100,97,116,97, 8,0,0,0,
   0,0,255,127,0,128,1,0]

/-- The WAVE_FORMAT carried by `buf44`: 16-bit mono PCM at 8000 Hz. -/
def fmt44 : WAVE_FORMAT where
  format_tag := 1
  channels := 1
  samples_per_sec := 8000
  avg_bytes_per_sec := 16000
  block_align := 2
  bits_per_sample := 16

/-- The WAVE that Wave_ParseBuffer produces for `buf44`. -/
def wave44 : WAVE where
  free_ptr := none
  free_ptr_size := 0
  header := some 0
  format_chunk := some 12
  format_chunk_offset := 12
  data_chunk := some 36
  data_chunk_offset := 36
  sample_data := some 44
  sample_data_size := 8
  sample_data_offset := 44
  format := some fmt44

/-- A 12-byte buffer whose RIFF header declares size 100: the walk window
extends far past the physical end of the buffer. -/
def hdrBig : List Nat := [82,73,70,70, 100,0,0,0, 87,65,86,69]

/-- A 12-byte header-only file (RIFF size 4, WAVE, no chunks at all). -/
def hdrOnly4 : List Nat := [82,73,70,70, 4,0,0,0, 87,65,86,69]

/-- Twelve zero bytes: a buffer that fails the RIFF header check. -/
def bad12 : List Nat := [0,0,0,0,0,0,0,0,0,0,0,0]

/-- 16-bit PCM file whose data chunk declares the odd size 3 (3 payload
bytes plus one pad byte). -/
def bufOdd : List Nat :=
  [82,73,70,70, 40,0,0,0, 87,65,86,69,
   102,109,116,32, 16,0,0,0,
   1,0, 1,0, 64,31,0,0, 128,62,0,0, 2,0, 16,0,
   100,97,116,97, 3,0,0,0,
   1,2,3,0]

/-- A JUNK chunk declaring size 0xFFFFFFFF followed by a data chunk: the
uint32 wraparound in the advance makes the cursor move only 8 bytes. -/
def bufBig : List Nat :=
  [82,73,70,70, 20,0,0,0, 87,65,86,69,
   74,85,78,75, 255,255,255,255,
   100,97,116,97, 4,0,0,0]

/-- Two data chunks of size 0: the second (offset 20) must win. -/
def bufTwoData : List Nat :=
  [82,73,70,70, 20,0,0,0, 87,65,86,69,
   100,97,116,97, 0,0,0,0,
   100,97,116,97, 0,0,0,0]

/-- The WAVE that Wave_ParseBuffer produces for `bufOdd`: like `wave44` but
with the 3-byte data payload. -/
def waveOdd : WAVE := { wave44 with sample_data_size := 3 }

/-- Output WAVE of Wave_LoadStreamOnlyInfo when it fails after allocating the
44-byte scratch block: the handle survives in `free_ptr`. -/
def wInfoFail : WAVE :=
  { zeroWave with free_ptr := some 1, free_ptr_size := 44, header := some 0 }

/-- Output WAVE of Wave_ParseBuffer when the RIFF header check fails: the
memset already ran, so every field (the allocation handle included) is zero. -/
def wHdrFail : WAVE := { zeroWave with header := some 0 }

/-- A format with samples_per_sec = 0 (16-bit PCM, 8 payload bytes). -/
def wZeroRate : WAVE :=
  { zeroWave with
      sample_data_size := 8,
      format := some { format_tag := 1, channels := 1, samples_per_sec := 0,
                       avg_bytes_per_sec := 0, block_align := 2, bits_per_sample := 16 } }

/-- 16-bit PCM at 1 Hz with a 3-byte payload: the float quotient 3/2 differs
from the integer sample count 1. -/
def wLen3 : WAVE :=
  { zeroWave with
      sample_data_size := 3,
      format := some { format_tag := 1, channels := 1, samples_per_sec := 1,
                       avg_bytes_per_sec := 2, block_align := 2, bits_per_sample := 16 } }

/-! ## Helper lemmas -/

lemma readByte_some_lt {b : List Nat} {i v : Nat} (h : readByte b i = some v) :
    i < b.length := by
  unfold readByte at h
  cases hb : b[i]? with
  | none => rw [hb] at h; exact absurd h (by simp)
  | some x => exact (List.getElem?_eq_some.mp hb).1

lemma readByte_some_of {b : List Nat} {i : Nat} (h : i < b.length) :
    ∃ v, readByte b i = some v := by
  unfold readByte
  cases hb : b[i]? with
  | none => rw [List.getElem?_eq_none_iff] at hb; omega
  | some x => exact ⟨x % 256, rfl⟩

lemma readU16_some_lt {b : List Nat} {i v : Nat} (h : readU16 b i = some v) :
    i + 1 < b.length := by
  unfold readU16 at h
  cases h0 : readByte b i <;> rw [h0] at h
  · simp at h
  · cases h1 : readByte b (i + 1) <;> rw [h1] at h
    · simp at h
    · exact readByte_some_lt h1

lemma readU16_some_of {b : List Nat} {i : Nat} (h : i + 1 < b.length) :
    ∃ v, readU16 b i = some v := by
  obtain ⟨v0, h0⟩ := readByte_some_of (b := b) (i := i) (by omega)
  obtain ⟨v1, h1⟩ := readByte_some_of (b := b) (i := i + 1) h
  exact ⟨v0 + 256 * v1, by unfold readU16; rw [h0, h1]⟩

lemma readU32_some_of {b : List Nat} {i : Nat} (h : i + 3 < b.length) :
    ∃ v, readU32 b i = some v := by
  obtain ⟨v0, h0⟩ := readByte_some_of (b := b) (i := i) (by omega)
  obtain ⟨v1, h1⟩ := readByte_some_of (b := b) (i := i + 1) (by omega)
  obtain ⟨v2, h2⟩ := readByte_some_of (b := b) (i := i + 2) (by omega)
  obtain ⟨v3, h3⟩ := readByte_some_of (b := b) (i := i + 3) h
  exact ⟨v0 + 256 * v1 + 65536 * v2 + 16777216 * v3, by unfold readU32; rw [h0, h1, h2, h3]⟩

lemma walkChunks_done_preserve (b : List Nat) (maxOff : Nat) :
    ∀ fuel cur w w', walkChunks b maxOff fuel cur w = WalkOut.done w' →
      w'.free_ptr = w.free_ptr ∧ w'.free_ptr_size = w.free_ptr_size ∧
      w'.header = w.header ∧ w'.format = w.format ∧
      w'.sample_data = w.sample_data ∧ w'.sample_data_size = w.sample_data_size ∧
      w'.sample_data_offset = w.sample_data_offset := by
  intro fuel
  induction fuel with
  | zero => intro cur w w' h; simp [walkChunks] at h
  | succ n ih =>
    intro cur w w' h
    simp only [walkChunks] at h
    split at h
    · split at h
      · have hh := ih _ _ _ h
        split at hh
        · simpa using hh
        · split at hh
          · simpa using hh
          · exact hh
      · simp at h
    · cases h
      exact ⟨rfl, rfl, rfl, rfl, rfl, rfl, rfl⟩

lemma walkChunks_done_data_offset (b : List Nat) (maxOff : Nat) :
    ∀ fuel cur w w', walkChunks b maxOff fuel cur w = WalkOut.done w' →
      (∀ o, w.data_chunk = some o → w.data_chunk_offset = o) →
      ∀ o, w'.data_chunk = some o → w'.data_chunk_offset = o := by
  intro fuel
  induction fuel with
  | zero => intro cur w w' h; simp [walkChunks] at h
  | succ n ih =>
    intro cur w w' h hw
    simp only [walkChunks] at h
    split at h
    · split at h
      · refine ih _ _ _ h ?_
        split
        · intro o ho
          simp only [WAVE.data_chunk] at ho ⊢
          simpa using ho
        · split
          · intro o ho; exact hw o ho
          · intro o ho; exact hw o ho
      · simp at h
    · cases h
      exact hw

lemma validateTail_ret {b : List Nat} {fp : Nat} {w : WAVE} {r : Nat} {w' : WAVE}
    (h : validateTail b fp w = COut.ret r (some w')) : w' = w := by
  unfold validateTail at h
  split at h
  · simp at h
  · split at h
    · simp only [COut.ret.injEq, Option.some.injEq] at h
      exact h.2.symm
    · split at h
      · simp at h
      · split at h
        · simp only [COut.ret.injEq, Option.some.injEq] at h
          exact h.2.symm
        · split at h
          · simp only [COut.ret.injEq, Option.some.injEq] at h
            exact h.2.symm
          · simp only [COut.ret.injEq, Option.some.injEq] at h
            exact h.2.symm

lemma validateTail_ok_inv {b : List Nat} {fp : Nat} {wx w' : WAVE}
    (h : validateTail b fp wx = COut.ret 1 (some w')) :
    ∃ tag bits, readU16 b fp = some tag ∧ readU16 b (fp + 14) = some bits ∧
      ((tag = 1 ∧ (bits = 8 ∨ bits = 16 ∨ bits = 32)) ∨
       (tag = 3 ∧ (bits = 32 ∨ bits = 64))) ∧ w' = wx := by
  unfold validateTail at h
  split at h
  · simp at h
  · next tag htag =>
    split at h
    · simp at h
    · next hc1 =>
      split at h
      · simp at h
      · next bits hbits =>
        split at h
        · simp at h
        · next hc2 =>
          split at h
          · simp at h
          · next hc3 =>
            simp only [COut.ret.injEq, Option.some.injEq] at h
            refine ⟨tag, bits, htag, hbits, ?_, h.2.symm⟩
            tauto

lemma decodeFormat_of_reads {b : List Nat} {fp tag bits : Nat}
    (htag : readU16 b fp = some tag) (hbits : readU16 b (fp + 14) = some bits) :
    ∃ f, decodeFormat b fp = some f ∧ f.format_tag = tag ∧ f.bits_per_sample = bits := by
  have hlen : fp + 14 + 1 < b.length := readU16_some_lt hbits
  obtain ⟨ch, hch⟩ := readU16_some_of (b := b) (i := fp + 2) (by omega)
  obtain ⟨sps, hsps⟩ := readU32_some_of (b := b) (i := fp + 4) (by omega)
  obtain ⟨abps, habps⟩ := readU32_some_of (b := b) (i := fp + 8) (by omega)
  obtain ⟨ba, hba⟩ := readU16_some_of (b := b) (i := fp + 12) (by omega)
  refine ⟨⟨tag, ch, sps, abps, ba, bits⟩, ?_, rfl, rfl⟩
  unfold decodeFormat
  rw [htag, hch, hsps, habps, hba, hbits]

lemma parseBuffer_ok_shape {b : List Nat} {sz : Nat} {w0 w : WAVE}
    (h : Wave_ParseBuffer (some b) sz (some w0) = COut.ret 1 (some w)) :
    ∃ rsz w1, readU32 b 4 = some rsz ∧
      walkChunks b (12 + rsz - 4) (12 + rsz - 4 + 1) 12
        { zeroWave with header := some 0 } = WalkOut.done w1 ∧
      parseTail b w1 = COut.ret 1 (some w) := by
  simp only [Wave_ParseBuffer] at h
  split at h
  · simp at h
  · split at h
    · simp at h
    · split at h
      · simp at h
      · split at h
        · simp at h
        · split at h
          · simp at h
          · split at h
            · simp at h
            · next rsz hrsz =>
              split at h
              · next w1 hwalk => exact ⟨rsz, w1, hrsz, hwalk, h⟩
              · simp at h

lemma parseTail_ok_inv {b : List Nat} {w1 w : WAVE}
    (h : parseTail b w1 = COut.ret 1 (some w)) :
    ∃ fo, w1.format_chunk = some fo ∧
      ((w1.data_chunk = none ∧
          w = { w1 with format := decodeFormat b (fo + 8) } ∧
          validateTail b (fo + 8) w = COut.ret 1 (some w)) ∨
       (∃ doff dsz, w1.data_chunk = some doff ∧ readU32 b (doff + 4) = some dsz ∧
          w = { w1 with format := decodeFormat b (fo + 8),
                        sample_data := some (doff + 8),
                        sample_data_size := dsz,
                        sample_data_offset := doff + 8 } ∧
          validateTail b (fo + 8) w = COut.ret 1 (some w))) := by
  unfold parseTail at h
  split at h
  · simp at h
  · next fo hfo =>
    split at h
    · next hdc =>
      have hw := validateTail_ret h
      exact ⟨fo, hfo, Or.inl ⟨hdc, hw, hw ▸ h⟩⟩
    · next doff hdc =>
      split at h
      · simp at h
      · next dsz hdsz =>
        have hw := validateTail_ret h
        exact ⟨fo, hfo, Or.inr ⟨doff, dsz, hdc, hdsz, hw, hw ▸ h⟩⟩

lemma chunkAdvance_ge_8 (sz : Nat) : 8 ≤ chunkAdvance sz := by
  unfold chunkAdvance; omega

lemma walkChunks_fuel_sufficient (b : List Nat) (maxOff : Nat) :
    ∀ fuel cur w, maxOff - cur < fuel →
      walkChunks b maxOff fuel cur w ≠ WalkOut.noFuel := by
  intro fuel
  induction fuel with
  | zero => intro cur w h; omega
  | succ n ih =>
    intro cur w h
    simp only [walkChunks]
    split
    · next hcur =>
      split
      · next cid csz hr1 hr2 =>
        apply ih
        have := chunkAdvance_ge_8 csz
        omega
      · simp
    · simp

lemma infoLoop_fuel_sufficient (fb : List Nat) (size : Nat) :
    ∀ fuel pos w, size - pos < fuel →
      infoLoop fb size fuel pos w ≠ WalkOut.noFuel := by
  intro fuel
  induction fuel with
  | zero => intro pos w h; omega
  | succ n ih =>
    intro pos w h
    simp only [infoLoop]
    split
    · next hpos =>
      split
      · simp
      · split
        · next cid csz hr1 hr2 =>
          repeat' split
          all_goals first
            | (apply ih; omega)
            | simp
        · simp
    · simp

lemma walkChunks_lastChunkOcc (b : List Nat) (maxOff : Nat) :
    ∀ fuel cur w w' tr,
      walkChunks b maxOff fuel cur w = WalkOut.done w' →
      walkTrace b maxOff fuel cur = some tr →
      (w'.format_chunk = match lastChunkOcc FMT_ID tr with
         | some o => some o
         | none => w.format_chunk) ∧
      (w'.data_chunk = match lastChunkOcc DATA_ID tr with
         | some o => some o
         | none => w.data_chunk) := by
  intro fuel
  induction fuel with
  | zero => intro cur w w' tr h ht; simp [walkChunks] at h
  | succ n ih =>
    intro cur w w' tr h ht
    simp only [walkChunks] at h
    simp only [walkTrace] at ht
    split at h
    · next hcur =>
      rw [if_pos hcur] at ht
      split at h
      · next cid csz hr1 hr2 =>
        rw [hr1, hr2] at ht
        simp only [] at ht
        obtain ⟨tr', hmap, htr⟩ := Option.map_eq_some'.mp ht
        subst htr
        have hih := ih _ _ _ _ h hmap
        refine ⟨?_, ?_⟩
        · have hfmt := hih.1
          simp only [lastChunkOcc]
          cases hlast : lastChunkOcc FMT_ID tr' with
          | some o => rw [hlast] at hfmt; simpa using hfmt
          | none =>
            rw [hlast] at hfmt
            by_cases hd : cid = DATA_ID
            · subst hd
              rw [if_pos rfl] at hfmt
              simpa [show ¬(DATA_ID = FMT_ID) by decide] using hfmt
            · by_cases hf : cid = FMT_ID
              · subst hf
                rw [if_neg hd, if_pos rfl] at hfmt
                simpa using hfmt
              · rw [if_neg hd, if_neg hf] at hfmt
                simpa [hf] using hfmt
        · have hdat := hih.2
          simp only [lastChunkOcc]
          cases hlast : lastChunkOcc DATA_ID tr' with
          | some o => rw [hlast] at hdat; simpa using hdat
          | none =>
            rw [hlast] at hdat
            by_cases hd : cid = DATA_ID
            · subst hd
              rw [if_pos rfl] at hdat
              simpa using hdat
            · by_cases hf : cid = FMT_ID
              · subst hf
                rw [if_neg hd, if_pos rfl] at hdat
                simpa [show ¬(FMT_ID = DATA_ID) by decide] using hdat
              · rw [if_neg hd, if_neg hf] at hdat
                simpa [hd] using hdat
      · simp at h
    · next hcur =>
      rw [if_neg hcur] at ht
      cases h
      cases ht
      exact ⟨rfl, rfl⟩

lemma parseBuffer_ok_free_ptr {b : List Nat} {sz : Nat} {w0 w : WAVE}
    (h : Wave_ParseBuffer (some b) sz (some w0) = COut.ret 1 (some w)) :
    w.free_ptr = none := by
  obtain ⟨rsz, w1, hrsz, hwalk, htail⟩ := parseBuffer_ok_shape h
  have hp := (walkChunks_done_preserve _ _ _ _ _ _ hwalk).1
  simp only [zeroWave] at hp
  obtain ⟨fo, hfo, hcase⟩ := parseTail_ok_inv htail
  rcases hcase with ⟨hdc, hw, -⟩ | ⟨doff, dsz, hdc, hdsz, hw, -⟩ <;>
    rw [hw] <;> simpa using hp

lemma parseBuffer_ok_format {b : List Nat} {sz : Nat} {w0 w : WAVE}
    (h : Wave_ParseBuffer (some b) sz (some w0) = COut.ret 1 (some w)) :
    ∃ f, w.format = some f ∧
      ((f.format_tag = 1 ∧
          (f.bits_per_sample = 8 ∨ f.bits_per_sample = 16 ∨ f.bits_per_sample = 32)) ∨
       (f.format_tag = 3 ∧ (f.bits_per_sample = 32 ∨ f.bits_per_sample = 64))) := by
  obtain ⟨rsz, w1, hrsz, hwalk, htail⟩ := parseBuffer_ok_shape h
  obtain ⟨fo, hfo, hcase⟩ := parseTail_ok_inv htail
  rcases hcase with ⟨hdc, hw, hval⟩ | ⟨doff, dsz, hdc, hdsz, hw, hval⟩ <;>
  · obtain ⟨tag, bits, htag, hbits, hvalid, -⟩ := validateTail_ok_inv hval
    obtain ⟨f, hdec, hft, hbp⟩ := decodeFormat_of_reads htag hbits
    refine ⟨f, ?_, ?_⟩
    · rw [hw]; simpa using hdec
    · rw [hft, hbp]; exact hvalid

/-- Claim C1: the claim says the chunk walker of Wave_ParseBuffer never reads
bytes outside the provided buffer even when the RIFF size field is larger
than the buffer.  The code violates this: on a 12-byte buffer whose RIFF
header declares size 100 the walk window reaches offset 108, and the walker
dereferences the 8 bytes at offset 12, past the end of the buffer (the model
read `readU32 hdrBig 12` is `none`, so the parse ends in undefined
behaviour `ub` instead of terminating cleanly). -/
theorem wave_parseBuffer_reads_past_buffer_on_oversized_riff_size :
    hdrBig.length = 12 ∧ readU32 hdrBig 4 = some 100 ∧
    readU32 hdrBig 12 = none ∧
    Wave_ParseBuffer (some hdrBig) 12 (some zeroWave) = COut.ub := by
  decide

/-- Claim C2: Wave_ValidateFormat accepts exactly the pairs
(PCM, 8 or 16 or 32 bits) and (IEEE_FLOAT, 32 or 64 bits); every other
combination, 24-bit PCM included, is rejected. -/
theorem wave_validateFormat_accepts_iff :
    ∀ (w : WAVE) (f : WAVE_FORMAT),
      Wave_ValidateFormat { w with format := some f } = true ↔
        ((f.format_tag = 1 ∧
            (f.bits_per_sample = 8 ∨ f.bits_per_sample = 16 ∨ f.bits_per_sample = 32)) ∨
         (f.format_tag = 3 ∧ (f.bits_per_sample = 32 ∨ f.bits_per_sample = 64))) := by
  intro w f
  simp only [Wave_ValidateFormat]
  split_ifs with hA hB hC <;> simp <;> omega

/-- Claim C3: Wave_ParseBuffer returns 0 when the buffer is NULL, the size is
0 or the output pointer is NULL (out_wave untouched); returns 0 when the
first 12 bytes do not carry the RIFF and WAVE tags; and returns 0 when the
chunk walk finishes without locating a fmt chunk.  In each case the call
aborts with failure. -/
theorem wave_parseBuffer_failure_cases :
    (∀ (size : Nat) (out0 : Option WAVE),
      Wave_ParseBuffer none size out0 = COut.ret 0 none) ∧
    (∀ (b : List Nat) (out0 : Option WAVE),
      Wave_ParseBuffer (some b) 0 out0 = COut.ret 0 none) ∧
    (∀ (b : List Nat) (size : Nat),
      Wave_ParseBuffer (some b) size none = COut.ret 0 none) ∧
    (∀ (b : List Nat) (size : Nat) (w0 : WAVE), size ≠ 0 → 12 ≤ b.length →
      ¬(readU32 b 0 = some RIFF_ID ∧ readU32 b 8 = some WAVE_ID) →
      Wave_ParseBuffer (some b) size (some w0) =
        COut.ret 0 (some { zeroWave with header := some 0 })) ∧
    (∀ (b : List Nat) (size : Nat) (w0 : WAVE) (rsz : Nat) (w1 : WAVE), size ≠ 0 →
      readU32 b 0 = some RIFF_ID → readU32 b 8 = some WAVE_ID →
      readU32 b 4 = some rsz →
      walkChunks b (12 + rsz - 4) (12 + rsz - 4 + 1) 12
        { zeroWave with header := some 0 } = WalkOut.done w1 →
      w1.format_chunk = none →
      Wave_ParseBuffer (some b) size (some w0) = COut.ret 0 (some w1)) := by
  refine ⟨?_, ?_, ?_, ?_, ?_⟩
  · intro size out0; rfl
  · intro b out0; cases out0 <;> rfl
  · intro b size; rfl
  · intro b size w0 hsz hlen hbad
    obtain ⟨r0, h0⟩ := readU32_some_of (b := b) (i := 0) (by omega)
    obtain ⟨r8, h8⟩ := readU32_some_of (b := b) (i := 8) (by omega)
    by_cases hr : r0 = RIFF_ID
    · subst hr
      have hw : r8 ≠ WAVE_ID := fun hww => hbad ⟨h0, hww ▸ h8⟩
      simp only [Wave_ParseBuffer]
      rw [if_neg hsz]
      simp only [h0]
      rw [if_neg (show ¬RIFF_ID ≠ RIFF_ID by simp)]
      simp only [h8]
      rw [if_pos hw]
    · simp only [Wave_ParseBuffer]
      rw [if_neg hsz]
      simp only [h0]
      rw [if_pos hr]
  · intro b size w0 rsz w1 hsz h0 h8 h4 hwalk hfc
    simp only [Wave_ParseBuffer]
    rw [if_neg hsz]
    simp only [h0]
    rw [if_neg (show ¬RIFF_ID ≠ RIFF_ID by simp)]
    simp only [h8]
    rw [if_neg (show ¬WAVE_ID ≠ WAVE_ID by simp)]
    simp only [h4, hwalk]
    simp only [parseTail, hfc]

/-- Witness for C3: the failure cases evaluated at concrete inputs (NULL
buffer; zero size; NULL output; a 12-byte all-zero buffer failing the header
check; a header-only file with no fmt chunk). -/
theorem wave_parseBuffer_failure_cases_witness :
    Wave_ParseBuffer none 5 (some zeroWave) = COut.ret 0 none ∧
    Wave_ParseBuffer (some bad12) 0 (some zeroWave) = COut.ret 0 none ∧
    Wave_ParseBuffer (some bad12) 12 none = COut.ret 0 none ∧
    Wave_ParseBuffer (some bad12) 12 (some zeroWave) =
      COut.ret 0 (some { zeroWave with header := some 0 }) ∧
    Wave_ParseBuffer (some hdrOnly4) 12 (some zeroWave) =
      COut.ret 0 (some { zeroWave with header := some 0 }) := by
  refine ⟨wave_parseBuffer_failure_cases.1 5 (some zeroWave),
    wave_parseBuffer_failure_cases.2.1 bad12 (some zeroWave),
    wave_parseBuffer_failure_cases.2.2.1 bad12 12,
    wave_parseBuffer_failure_cases.2.2.2.1 bad12 12 zeroWave (by decide) (by decide)
      (by decide),
    wave_parseBuffer_failure_cases.2.2.2.2 hdrOnly4 12 zeroWave 4
      { zeroWave with header := some 0 } (by decide) (by decide) (by decide) (by decide)
      (by decide) (by decide)⟩

/-- Claim C4: the path loaders swallow failures.  On an empty file,
Wave_ParseBuffer fails (size 0) yet Wave_LoadPath returns 1; on a header-only
file, Wave_LoadStreamOnlyInfo fails (no fmt chunk) yet Wave_LoadPathOnlyInfo
returns 1. -/
theorem wave_loadPath_success_despite_failed_parse :
    Wave_ParseBuffer (some ([] : List Nat)) 0 (some zeroWave) = COut.ret 0 none ∧
    Wave_LoadPath false (some ([] : List Nat)) (some zeroWave) =
      COut.ret 1 (some { zeroWave with free_ptr := some 1 }) ∧
    Wave_LoadStreamOnlyInfo (some hdrOnly4) 12 (some zeroWave) =
      COut.ret 0 (some wInfoFail) ∧
    Wave_LoadPathOnlyInfo false (some hdrOnly4) (some zeroWave) =
      COut.ret 1 (some wInfoFail) := by
  decide

/-- Counterexample for C5.  At `wZeroRate` (samples_per_sec = 0) the code
performs a float division with zero divisor — under IEEE 754 this yields
plus or minus infinity or NaN — instead of returning 0.0 as the claim says.
At `wLen3` (3 payload bytes, 16-bit) the code returns the float quotient
3/2 divided by the rate, not the integer sample count 1 divided by the rate,
so the returned length is not sample_count / samples_per_sec either. -/
theorem wave_getLengthInSeconds_claim_counterexample :
    Wave_GetLengthInSeconds (some wZeroRate) = FloatOut.divZero ∧
    FloatOut.divZero ≠ FloatOut.val 0 ∧
    Wave_GetLengthInSeconds (some wLen3) =
      FloatOut.val (((3 : Nat) : Rat) / ((16 / 8 : Nat) : Rat) / ((1 : Nat) : Rat)) ∧
    ((3 : Nat) : Rat) / ((16 / 8 : Nat) : Rat) / ((1 : Nat) : Rat) = 3 / 2 ∧
    Wave_GetSampleCount (some wLen3) = some 1 ∧
    (3 / 2 : Rat) ≠ 1 := by
  refine ⟨rfl, fun h => FloatOut.noConfusion h, rfl, by norm_num, by decide, by norm_num⟩

/-- Claim C5 (amended): Wave_GetLengthInSeconds returns
(sample_data_size / (bits_per_sample / 8)) / samples_per_sec computed with
float division — equal to sample_count / samples_per_sec only when
bits_per_sample / 8 divides sample_data_size — returns 0.0 when the wave or
its format is absent, and performs a float division by zero (IEEE result:
plus or minus infinity or NaN, never 0.0) when samples_per_sec is 0 or
bits_per_sample is below 8. -/
theorem wave_getLengthInSeconds_spec :
    Wave_GetLengthInSeconds none = FloatOut.val 0 ∧
    (∀ w : WAVE, w.format = none → Wave_GetLengthInSeconds (some w) = FloatOut.val 0) ∧
    (∀ (w : WAVE) (f : WAVE_FORMAT), w.format = some f →
      f.bits_per_sample / 8 ≠ 0 → f.samples_per_sec ≠ 0 →
      Wave_GetLengthInSeconds (some w) =
        FloatOut.val ((w.sample_data_size : Rat) / ((f.bits_per_sample / 8 : Nat) : Rat) /
          ((f.samples_per_sec : Nat) : Rat))) ∧
    (∀ (w : WAVE) (f : WAVE_FORMAT), w.format = some f →
      (f.bits_per_sample / 8 = 0 ∨ f.samples_per_sec = 0) →
      Wave_GetLengthInSeconds (some w) = FloatOut.divZero) := by
  refine ⟨rfl, ?_, ?_, ?_⟩
  · intro w hf; simp only [Wave_GetLengthInSeconds, hf]
  · intro w f hf hd hs
    simp only [Wave_GetLengthInSeconds, hf]
    rw [if_neg hd, if_neg hs]
  · intro w f hf hds
    simp only [Wave_GetLengthInSeconds, hf]
    rcases hds with hd | hs
    · rw [if_pos hd]
    · by_cases hd : f.bits_per_sample / 8 = 0
      · rw [if_pos hd]
      · rw [if_neg hd, if_pos hs]

/-- Witness for C5 (amended), at concrete waves: the unparsed wave, the
scenario wave (8 bytes of 16-bit samples at 8000 Hz), and the zero-rate
wave. -/
theorem wave_getLengthInSeconds_spec_witness :
    Wave_GetLengthInSeconds (some zeroWave) = FloatOut.val 0 ∧
    Wave_GetLengthInSeconds (some wave44) =
      FloatOut.val ((8 : Rat) / ((2 : Nat) : Rat) / ((8000 : Nat) : Rat)) ∧
    Wave_GetLengthInSeconds (some wZeroRate) = FloatOut.divZero := by
  refine ⟨wave_getLengthInSeconds_spec.2.1 zeroWave rfl, ?_,
    wave_getLengthInSeconds_spec.2.2.2 wZeroRate _ rfl (Or.inr rfl)⟩
  exact wave_getLengthInSeconds_spec.2.2.1 wave44 fmt44 rfl (by decide) (by decide)

/-- Counterexample for C7.  `bufOdd` parses successfully with a 3-byte data
chunk and 16-bit PCM: Wave_GetSampleCount returns 3 / 2 = 1, and
1 * (16 / 8) = 2 is not the sample_data_size 3, so the multiply-back
identity of the claim fails on an accepted input. -/
theorem wave_getSampleCount_round_trip_counterexample :
    Wave_ParseBuffer (some bufOdd) 48 (some zeroWave) = COut.ret 1 (some waveOdd) ∧
    waveOdd.sample_data_size = 3 ∧
    Wave_GetSampleCount (some waveOdd) = some 1 ∧
    1 * (16 / 8) ≠ (3 : Nat) := by
  decide

/-- Claim C7 (amended): for every successful parse, Wave_GetSampleCount
returns the int32 truncation of sample_data_size / (bits_per_sample / 8)
(integer division); when bits_per_sample / 8 divides sample_data_size and
the quotient is below 2 ^ 31, the count is exactly that quotient and
multiplying it back by bits_per_sample / 8 recovers sample_data_size. -/
theorem wave_getSampleCount_spec :
    ∀ (b : List Nat) (sz : Nat) (w0 w : WAVE),
      Wave_ParseBuffer (some b) sz (some w0) = COut.ret 1 (some w) →
      ∃ f, w.format = some f ∧
        Wave_GetSampleCount (some w) =
          some (toInt32 (w.sample_data_size / (f.bits_per_sample / 8))) ∧
        (f.bits_per_sample / 8 ∣ w.sample_data_size →
          w.sample_data_size / (f.bits_per_sample / 8) < 2 ^ 31 →
          Wave_GetSampleCount (some w) =
            some ((w.sample_data_size / (f.bits_per_sample / 8) : Nat) : Int) ∧
          w.sample_data_size / (f.bits_per_sample / 8) * (f.bits_per_sample / 8) =
            w.sample_data_size) := by
  intro b sz w0 w h
  obtain ⟨f, hf, hvalid⟩ := parseBuffer_ok_format h
  have hd : f.bits_per_sample / 8 ≠ 0 := by
    rcases hvalid with ⟨-, h8 | h16 | h32⟩ | ⟨-, h32 | h64⟩ <;> omega
  refine ⟨f, hf, ?_, ?_⟩
  · simp only [Wave_GetSampleCount, hf]
    rw [if_neg hd]
  · intro hdvd hlt
    constructor
    · simp only [Wave_GetSampleCount, hf]
      rw [if_neg hd]
      have hq : w.sample_data_size / (f.bits_per_sample / 8) % 2 ^ 32 =
          w.sample_data_size / (f.bits_per_sample / 8) :=
        Nat.mod_eq_of_lt (by omega)
      simp only [toInt32, hq]
      rw [if_pos hlt]
    · exact Nat.div_mul_cancel hdvd

/-- Witness for C7 (amended): on the scenario buffer the count is 8 / 2 = 4
and 4 * 2 = 8 recovers the payload size. -/
theorem wave_getSampleCount_spec_witness :
    wave44.format = some fmt44 ∧
    Wave_GetSampleCount (some wave44) =
      some (toInt32 (wave44.sample_data_size / (fmt44.bits_per_sample / 8))) ∧
    Wave_GetSampleCount (some wave44) =
      some ((wave44.sample_data_size / (fmt44.bits_per_sample / 8) : Nat) : Int) ∧
    wave44.sample_data_size / (fmt44.bits_per_sample / 8) * (fmt44.bits_per_sample / 8) =
      wave44.sample_data_size := by
  obtain ⟨f, hf, hcount, hrt⟩ := wave_getSampleCount_spec buf44 52 zeroWave wave44 (by decide)
  have h2 : (some fmt44 : Option WAVE_FORMAT) = some f := hf
  have hfeq : f = fmt44 := (Option.some.inj h2).symm
  subst hfeq
  obtain ⟨h1, h2⟩ := hrt (by decide) (by decide)
  exact ⟨rfl, hcount, h1, h2⟩

/-- Claim C6: on every successful parse that located a data chunk, the
sample_data pointer is buffer + sample_data_offset, sample_data_offset is
the first byte after the data ChunkHeader (data_chunk_offset + 8), and
sample_data_size equals the size field stored in that data ChunkHeader. -/
theorem wave_parseBuffer_sample_data_round_trip :
    ∀ (b : List Nat) (sz : Nat) (w0 w : WAVE),
      Wave_ParseBuffer (some b) sz (some w0) = COut.ret 1 (some w) →
      ∀ doff, w.data_chunk = some doff →
        w.sample_data = some w.sample_data_offset ∧
        w.sample_data_offset = w.data_chunk_offset + 8 ∧
        readU32 b (w.data_chunk_offset + 4) = some w.sample_data_size := by
  intro b sz w0 w h doff hdoff
  obtain ⟨rsz, w1, hrsz, hwalk, htail⟩ := parseBuffer_ok_shape h
  obtain ⟨fo, hfo, hcase⟩ := parseTail_ok_inv htail
  have hinv : ∀ o, w1.data_chunk = some o → w1.data_chunk_offset = o := by
    refine walkChunks_done_data_offset _ _ _ _ _ _ hwalk ?_
    intro o ho
    simp [zeroWave] at ho
  rcases hcase with ⟨hdc, hw, -⟩ | ⟨doff', dsz, hdc, hdsz, hw, -⟩
  · subst hw
    have hdoff' : w1.data_chunk = some doff := hdoff
    rw [hdc] at hdoff'
    cases hdoff'
  · subst hw
    have hoff : w1.data_chunk_offset = doff' := hinv _ hdc
    refine ⟨rfl, ?_, ?_⟩
    · show doff' + 8 = w1.data_chunk_offset + 8
      rw [hoff]
    · show readU32 b (w1.data_chunk_offset + 4) = some dsz
      rw [hoff]
      exact hdsz

/-- Witness for C6: the scenario buffer, whose data chunk sits at offset 36
with an 8-byte payload at offset 44. -/
theorem wave_parseBuffer_sample_data_round_trip_witness :
    Wave_ParseBuffer (some buf44) 52 (some zeroWave) = COut.ret 1 (some wave44) ∧
    (wave44.sample_data = some wave44.sample_data_offset ∧
      wave44.sample_data_offset = wave44.data_chunk_offset + 8 ∧
      readU32 buf44 (wave44.data_chunk_offset + 4) = some wave44.sample_data_size) := by
  exact ⟨by decide,
    wave_parseBuffer_sample_data_round_trip buf44 52 zeroWave wave44 (by decide) 36 (by decide)⟩

/-- Counterexample for C8.  The C advance expression wraps in uint32
arithmetic: at declared size 0xFFFFFFFF it advances the cursor by 8, not by
8 + 0xFFFFFFFF + 1 as the claim states; in `bufBig` the chunk at offset 12
declares size 0xFFFFFFFF and the walker nevertheless visits (and records)
the data chunk at offset 20 = 12 + 8. -/
theorem walker_advance_wrap_counterexample :
    chunkAdvance 4294967295 = 8 ∧
    8 + 4294967295 + 4294967295 % 2 = 4294967304 ∧
    chunkAdvance 4294967295 ≠ 8 + 4294967295 + 4294967295 % 2 ∧
    readU32 bufBig 16 = some 4294967295 ∧
    walkChunks bufBig 28 29 12 zeroWave =
      WalkOut.done { zeroWave with data_chunk := some 20, data_chunk_offset := 20 } := by
  decide

/-- Claim C8 (amended): for every payload size below 2 ^ 32 - 1 the walker
advances the cursor by exactly 8 + payload_size + (payload_size mod 2) — at
payload size 2 ^ 32 - 1 the uint32 wraparound makes the advance 8 — and when
several fmt or data chunks occur in the walk the LAST visited occurrence is
the one recorded. -/
theorem walker_advance_and_last_occurrence :
    (∀ sz, sz < 4294967295 → chunkAdvance sz = 8 + sz + sz % 2) ∧
    (∀ (b : List Nat) (maxOff fuel cur : Nat) (w w' : WAVE)
        (tr : List (Nat × Nat × Nat)),
      walkChunks b maxOff fuel cur w = WalkOut.done w' →
      walkTrace b maxOff fuel cur = some tr →
      (w'.format_chunk = match lastChunkOcc FMT_ID tr with
         | some o => some o
         | none => w.format_chunk) ∧
      (w'.data_chunk = match lastChunkOcc DATA_ID tr with
         | some o => some o
         | none => w.data_chunk)) := by
  constructor
  · intro sz hsz
    unfold chunkAdvance
    omega
  · intro b maxOff fuel cur w w' tr hw ht
    exact walkChunks_lastChunkOcc b maxOff fuel cur w w' tr hw ht

/-- Witness for C8 (amended): the advance rule at size 5, and the
last-occurrence rule on a walk visiting two data chunks (offsets 12 and 20):
the recorded one is offset 20. -/
theorem walker_advance_and_last_occurrence_witness :
    chunkAdvance 5 = 8 + 5 + 5 % 2 ∧
    (({ zeroWave with data_chunk := some 20, data_chunk_offset := 20 } : WAVE).format_chunk =
        match lastChunkOcc FMT_ID [(12, DATA_ID, 0), (20, DATA_ID, 0)] with
        | some o => some o
        | none => zeroWave.format_chunk) ∧
    (({ zeroWave with data_chunk := some 20, data_chunk_offset := 20 } : WAVE).data_chunk =
        match lastChunkOcc DATA_ID [(12, DATA_ID, 0), (20, DATA_ID, 0)] with
        | some o => some o
        | none => zeroWave.data_chunk) := by
  refine ⟨walker_advance_and_last_occurrence.1 5 (by decide), ?_, ?_⟩
  · exact (walker_advance_and_last_occurrence.2 bufTwoData 28 29 12 zeroWave
      { zeroWave with data_chunk := some 20, data_chunk_offset := 20 }
      [(12, DATA_ID, 0), (20, DATA_ID, 0)] (by decide) (by decide)).1
  · exact (walker_advance_and_last_occurrence.2 bufTwoData 28 29 12 zeroWave
      { zeroWave with data_chunk := some 20, data_chunk_offset := 20 }
      [(12, DATA_ID, 0), (20, DATA_ID, 0)] (by decide) (by decide)).2

/-- Claim C9: Wave_Free returns 1, hands (pointer, size) back to the
allocator and clears the handle exactly when the owning handle is non-null;
a second call after a successful release is a no-op returning 0, as is a
call on a handle-less WAVE such as any successful Wave_ParseBuffer output. -/
theorem wave_free_spec :
    (∀ w : WAVE, ((Wave_Free (some w)).1 = 1 ↔ w.free_ptr ≠ none)) ∧
    (∀ (w : WAVE) (p : Nat), w.free_ptr = some p →
      ∃ w', Wave_Free (some w) = (1, some (p, w.free_ptr_size), some w') ∧
        w'.free_ptr = none ∧ Wave_Free (some w') = (0, none, some w')) ∧
    (∀ w : WAVE, w.free_ptr = none → Wave_Free (some w) = (0, none, some w)) ∧
    (∀ (b : List Nat) (sz : Nat) (w0 w : WAVE),
      Wave_ParseBuffer (some b) sz (some w0) = COut.ret 1 (some w) →
      Wave_Free (some w) = (0, none, some w)) := by
  refine ⟨?_, ?_, ?_, ?_⟩
  · intro w
    simp only [Wave_Free]
    cases hfp : w.free_ptr with
    | none => simp
    | some p => simp
  · intro w p hp
    refine ⟨{ w with free_ptr := none, free_ptr_size := 0 }, ?_, rfl, rfl⟩
    simp only [Wave_Free, hp]
  · intro w hp
    simp only [Wave_Free, hp]
  · intro b sz w0 w h
    have hfp := parseBuffer_ok_free_ptr h
    simp only [Wave_Free, hfp]

/-- Witness for C9: releasing a WAVE holding handle 5 of size 7 frees
(5, 7) and a second release is refused; the WAVE parsed from the scenario
buffer owns nothing, so releasing it is refused. -/
theorem wave_free_spec_witness :
    ((Wave_Free (some wInfoFail)).1 = 1 ↔ wInfoFail.free_ptr ≠ none) ∧
    (∃ w', Wave_Free (some { zeroWave with free_ptr := some 5, free_ptr_size := 7 }) =
        (1, some (5, 7), some w') ∧ w'.free_ptr = none ∧
        Wave_Free (some w') = (0, none, some w')) ∧
    Wave_Free (some zeroWave) = (0, none, some zeroWave) ∧
    Wave_Free (some wave44) = (0, none, some wave44) := by
  refine ⟨wave_free_spec.1 wInfoFail, ?_, wave_free_spec.2.2.1 zeroWave rfl,
    wave_free_spec.2.2.2 buf44 52 zeroWave wave44 (by decide)⟩
  exact wave_free_spec.2.1 { zeroWave with free_ptr := some 5, free_ptr_size := 7 } 5 rfl

/-- Claim C10: the claim says that because both stream loaders store the
allocation handle before anything can fail, Wave_Free succeeds after any
post-allocation failure.  The code violates this for Wave_LoadStream: the
memset at the top of Wave_ParseBuffer erases the stored handle whenever the
size is non-zero, so after a failed load (here: 12 zero bytes failing the
RIFF check) the output carries no handle, Wave_Free returns 0 and the
allocation is never released.  For Wave_LoadStreamOnlyInfo (whose memset
precedes the store) the handle does survive and Wave_Free releases the
44-byte scratch block. -/
theorem wave_loadStream_handle_wiped_by_parse_memset :
    Wave_LoadStream (some bad12) 12 (some zeroWave) = COut.ret 0 (some wHdrFail) ∧
    wHdrFail.free_ptr = none ∧
    Wave_Free (some wHdrFail) = (0, none, some wHdrFail) ∧
    Wave_LoadStreamOnlyInfo (some bad12) 12 (some zeroWave) = COut.ret 0 (some wInfoFail) ∧
    wInfoFail.free_ptr = some 1 ∧
    Wave_Free (some wInfoFail) =
      (1, some (1, 44), some { wInfoFail with free_ptr := none, free_ptr_size := 0 }) := by
  decide
